import Mathlib

/-!
Shallow embedding of the sketch-garden growth engine
(src/types.ts, src/App.tsx, the GardenCanvas component and the Controls
component). Machine reals are modelled as exact rationals; the irrational
constant pi, the browser trigonometric functions, the noise generator and
the unseeded random source are abstracted as explicit parameters (an `Env`
record and per-tick `StepRands` records), since no verified property
depends on their numeric values. Every numeric literal below mirrors the
corresponding literal of the source.
-/

namespace SketchGarden

/-- PlantType enum from src/types.ts. -/
inductive PlantType where
  | VINE
  | PALM
  | GEOMETRIC
  | UMBRELLA
  | BERRY
deriving DecidableEq, Repr

/-- PlantSettings from src/types.ts: the full genome of one plant. -/
structure PlantSettings where
  type : PlantType
  stemColorStart : String
  stemColorEnd : String
  baseWidth : ℚ
  growthSpeed : ℚ
  maxLife : ℚ
  curlFactor : ℚ
  straightness : ℚ
  leafColorStart : String
  leafColorEnd : String
  leafFrequency : ℚ
  leafSize : ℚ
  flowerColorStart : String
  flowerColorEnd : String
  flowerProbability : ℚ
  flowerSize : ℚ
  petalCount : ℚ
deriving DecidableEq, Repr

/-- Drawing target of a grower: the shared outside canvas context, or the
private offscreen context of the bottle plant numbered `n`. Two contexts
are the same JS object exactly when this tag is equal. -/
inductive Surface where
  | ambient
  | plantSurface (n : ℕ)
deriving DecidableEq, Repr

/-- Primitive drawing commands recorded on a surface. Geometry parameters
mirror the arguments of the corresponding source calls; colors and the
internal path details of drawLeaf and drawFlower are not modelled because
no verified property depends on them. -/
inductive DrawOp where
  | fill (color : String) (w h : ℚ)
  | stem (x1 y1 x2 y2 lineWidth : ℚ)
  | leaf (x y angle size : ℚ)
  | flower (x y size petals : ℚ)
deriving DecidableEq, Repr

/-- Grower from src/types.ts: one active stem tip. -/
structure Grower where
  id : ℕ
  x : ℚ
  y : ℚ
  angle : ℚ
  life : ℕ
  maxLife : ℚ
  width : ℚ
  speed : ℚ
  color : String
  settings : PlantSettings
  noiseOffset : ℚ
  generation : ℕ
  ctx : Surface
  hasAttemptedFlower : Bool
deriving DecidableEq, Repr

/-- BottlePlant from the GardenCanvas component: a contained plant with a
private offscreen surface. -/
structure BottlePlant where
  id : ℕ
  originX : ℚ
  currentX : ℚ
  y : ℚ
  surface : ℕ
  settings : PlantSettings
deriving DecidableEq, Repr

/-- PlantHistoryItem from the GardenCanvas component. -/
structure PlantHistoryItem where
  x : ℚ
  y : ℚ
  settings : PlantSettings
  timestamp : ℕ
deriving DecidableEq, Repr

/-- DragState from the GardenCanvas component. -/
structure DragState where
  plantId : ℕ
  startX : ℚ
  plantStartX : ℚ
deriving DecidableEq, Repr

/-- Horizontal extent of a DOMRect (only the fields the code reads). -/
structure Rect where
  left : ℚ
  right : ℚ
deriving DecidableEq, Repr

/-- One drawImage command of the inside-canvas composite pass. -/
structure ViewOp where
  content : List DrawOp
  dx : ℚ
  dy : ℚ
deriving DecidableEq, Repr

/-- Abstracted browser environment: trigonometric functions, the
noiseGenerator.noise field function, and the constant pi, whose exact
values never matter for the verified properties. -/
structure Env where
  cos : ℚ → ℚ
  sin : ℚ → ℚ
  noise : ℚ → ℚ → ℚ → ℚ
  piVal : ℚ

/-- Outcomes of the Math.random() calls made while stepping one grower in
one tick, made explicit so that the step function is deterministic. -/
structure StepRands where
  geoSnapRand : ℚ
  geoSnapSign : Bool
  wobbleRand : ℚ
  leafRand : ℚ
  leafSign : Bool
  leafAngleRand : ℚ
  branchRand : ℚ
  branchSign : Bool
  branchNoiseRand : ℚ
  branchId : ℕ
  flowerRand : ℚ
deriving DecidableEq, Repr

/-- Ambient inputs of one spawnPlant call: the Date.now() timestamp, the
success of the two getContext calls, and the fresh identifiers and random
draws used for the created objects. -/
structure SpawnInputs where
  timestamp : ℕ
  allocOk : Bool
  outsideCtxOk : Bool
  freshSurface : ℕ
  freshPlantId : ℕ
  freshGrowerId : ℕ
  angleRand : ℚ
  noiseRand : ℚ
deriving DecidableEq, Repr

/-- Whole mutable state of the GardenCanvas component: the refs holding
growers, bottle plants, history, the two visible canvases and the private
plant canvases, the registered bottle rect, the drag session, and the
settings prop currently passed down from App. -/
structure GardenState where
  settings : PlantSettings
  growers : List Grower
  bottlePlants : List BottlePlant
  history : List PlantHistoryItem
  ambientContent : List DrawOp
  plantContent : ℕ → List DrawOp
  insideView : List ViewOp
  bottleRect : Option Rect
  dragState : Option DragState
  width : ℚ
  height : ℚ

/-- createGrower from the GardenCanvas component (lines 74 to 93). The
fresh id and the two random draws are passed in explicitly. -/
def createGrower (env : Env) (freshId : ℕ) (angleRand noiseRand : ℚ)
    (x y : ℚ) (plantSettings : PlantSettings) (ctx : Surface)
    (generation : ℕ) (initialAngle : Option ℚ) : Grower :=
  let baseAngle := -(env.piVal / 2)
  let startAngle := initialAngle.getD (baseAngle + (angleRand * 0.2 - 0.1))
  { id := freshId
    x := x
    y := y
    angle := startAngle
    life := 0
    maxLife := plantSettings.maxLife / ((generation : ℚ) + 1)
    width := plantSettings.baseWidth / ((generation : ℚ) + 1)
    speed := plantSettings.growthSpeed
    color := plantSettings.stemColorStart
    settings := plantSettings
    noiseOffset := noiseRand * 1000
    generation := generation
    ctx := ctx
    hasAttemptedFlower := false }

/-- Entry condition of the TERMINAL lifecycle phase, the guard
`life >= maxLife || grower.width < 0.1` of the per-grower update body. -/
def terminalG (g : Grower) : Prop :=
  g.maxLife ≤ (g.life : ℚ) ∨ g.width < 0.1

instance (g : Grower) : Decidable (terminalG g) := by
  unfold terminalG; exact inferInstance

/-- Heading update of one GROWING tick (lines 374 to 400), covering the
three archetype families: discrete snaps plus relaxation for GEOMETRIC,
doubled noise curl plus relaxation for BERRY, and the straight phase or
noise-driven wander for the default family. -/
def headingUpdate (env : Env) (r : StepRands) (g : Grower) : ℚ :=
  let progress := (g.life : ℚ) / g.maxLife
  if g.settings.type = PlantType.GEOMETRIC then
    let snapped :=
      if r.geoSnapRand < 0.05 then
        g.angle + (if r.geoSnapSign then 1 else -1) * (env.piVal / 6)
      else g.angle
    snapped + ((-(env.piVal / 2)) - snapped) * 0.02
  else if g.settings.type = PlantType.BERRY then
    let n := env.noise (g.x * 0.02) (g.y * 0.02)
      (g.noiseOffset + (g.life : ℚ) * 0.05)
    let curled := g.angle + n * (g.settings.curlFactor * 2)
    curled + ((-(env.piVal / 2)) - curled) * 0.02
  else
    if progress < g.settings.straightness then
      g.angle + ((-(env.piVal / 2)) - g.angle) * 0.1 + (r.wobbleRand - 0.5) * 0.05
    else
      g.angle + env.noise (g.x * 0.01) (g.y * 0.01)
        (g.noiseOffset + (g.life : ℚ) * 0.02) * g.settings.curlFactor

/-- Leaf angle offset of the leaf trial (lines 419 to 423). -/
def leafAngleOf (env : Env) (r : StepRands) (t : PlantType) (angle1 : ℚ) : ℚ :=
  if t = PlantType.PALM then
    angle1 + (if r.leafSign then env.piVal / 3 else -(env.piVal / 3))
  else if t = PlantType.GEOMETRIC then
    angle1 + (if r.leafSign then env.piVal / 2 else -(env.piVal / 2))
  else if t = PlantType.UMBRELLA then
    angle1 + (r.leafAngleRand - 0.5)
  else
    angle1 + (if r.leafSign then env.piVal / 2 else -(env.piVal / 2))
      + (r.leafAngleRand * 0.5 - 0.25)

/-- Archetype-specific branch probability (lines 429 to 433). -/
def branchChanceOf (t : PlantType) : ℚ :=
  if t = PlantType.PALM then 0.005
  else if t = PlantType.GEOMETRIC then 0.04
  else if t = PlantType.UMBRELLA then 0.002
  else if t = PlantType.BERRY then 0.04
  else 0.015

/-- Archetype-specific branch angular offset (lines 436 to 438). -/
def branchAngleOffsetOf (t : PlantType) : ℚ :=
  if t = PlantType.GEOMETRIC then 0.8
  else if t = PlantType.BERRY then 0.9
  else 0.6

/-- Body of the per-grower forEach in the update callback (lines 356 to
447): returns the mutated grower, the branch growers pushed during the
step, and the drawing commands emitted onto the surface of the grower. -/
def stepGrower (env : Env) (r : StepRands) (g : Grower) :
    Grower × List Grower × List DrawOp :=
  if terminalG g then
    if !g.hasAttemptedFlower then
      ({ g with hasAttemptedFlower := true, life := g.life + 1 }, [],
        if g.generation < 2 ∧ r.flowerRand < g.settings.flowerProbability then
          [DrawOp.flower g.x g.y g.settings.flowerSize g.settings.petalCount]
        else [])
    else
      ({ g with life := g.life + 1 }, [], [])
  else
    let progress := (g.life : ℚ) / g.maxLife
    let angle1 := headingUpdate env r g
    let nextX := g.x + env.cos angle1 * g.speed
    let nextY := g.y + env.sin angle1 * g.speed
    let currentWidth := g.width * (1 - progress)
    let stemOp := DrawOp.stem g.x g.y nextX nextY (max 0.5 currentWidth)
    let leafOps :=
      if r.leafRand < g.settings.leafFrequency then
        [DrawOp.leaf g.x g.y (leafAngleOf env r g.settings.type angle1)
          g.settings.leafSize]
      else []
    let branches :=
      if g.generation < 2 ∧ r.branchRand < branchChanceOf g.settings.type then
        let branchAngle := angle1 +
          (if r.branchSign then branchAngleOffsetOf g.settings.type
           else -(branchAngleOffsetOf g.settings.type))
        [createGrower env r.branchId 0 r.branchNoiseRand g.x g.y g.settings g.ctx
          (g.generation + 1) (some branchAngle)]
      else []
    ({ g with x := nextX, y := nextY, angle := angle1, life := g.life + 1 },
      branches, stemOp :: leafOps)

/-- Iteration of the forEach over the grower array: each original grower
is stepped once with its own random draws; growers pushed during the
iteration are collected at the end of the array and are not stepped again
within the same tick (forEach does not visit elements appended after the
call started). The third component tags the emitted drawing commands with
the surface of the grower that produced them. -/
def processGrowers (env : Env) (rands : ℕ → StepRands) :
    ℕ → List Grower → List Grower × List Grower × List (Surface × List DrawOp)
  | _, [] => ([], [], [])
  | i, g :: gs =>
    let r := stepGrower env (rands i) g
    let rest := processGrowers env rands (i + 1) gs
    (r.1 :: rest.1, r.2.1 ++ rest.2.1, (g.ctx, r.2.2) :: rest.2.2)

/-- Replay of the tagged drawing commands onto the surface contents:
strokes are appended to the targeted surface, never removed. -/
def applySurfaceOps :
    List DrawOp → (ℕ → List DrawOp) → List (Surface × List DrawOp) →
    List DrawOp × (ℕ → List DrawOp)
  | amb, pc, [] => (amb, pc)
  | amb, pc, (Surface.ambient, ops) :: rest =>
    applySurfaceOps (amb ++ ops) pc rest
  | amb, pc, (Surface.plantSurface n, ops) :: rest =>
    applySurfaceOps amb (fun m => if m = n then pc m ++ ops else pc m) rest

/-- Per-frame update callback (lines 354 to 466): step every grower,
filter out growers with life >= maxLife + 50, then rebuild the inside
canvas by clearing it fully and drawing every bottle plant surface at
horizontal offset currentX - originX and vertical offset 0. -/
def update (env : Env) (rands : ℕ → StepRands) (s : GardenState) : GardenState :=
  let stepped := processGrowers env rands 0 s.growers
  let content := applySurfaceOps s.ambientContent s.plantContent stepped.2.2
  { s with
    growers := (stepped.1 ++ stepped.2.1).filter
      (fun g => decide ((g.life : ℚ) < g.maxLife + 50))
    ambientContent := content.1
    plantContent := content.2
    insideView := s.bottlePlants.foldl
      (fun acc p => acc ++ [⟨content.2 p.surface, p.currentX - p.originX, 0⟩]) [] }

/-- History push with the 50-item cap: push, then shift the oldest item
out when the length exceeds 50. -/
def pushHistory (hist : List PlantHistoryItem) (item : PlantHistoryItem) :
    List PlantHistoryItem :=
  let h := hist ++ [item]
  if 50 < h.length then h.tail else h

/-- spawnPlant from the GardenCanvas component (lines 95 to 133). The
history item is recorded first; a bottle spawn then allocates an offscreen
canvas and, only when its drawing context is obtained, creates the
BottlePlant and one generation-0 grower targeting it; an outside spawn
creates one generation-0 grower on the ambient surface when the outside
context is available. -/
def spawnPlant (env : Env) (sp : SpawnInputs) (s : GardenState) (x y : ℚ)
    (overrideSettings : Option PlantSettings) (isInsideBottle : Bool) :
    GardenState :=
  let sGenome := overrideSettings.getD s.settings
  let history1 := pushHistory s.history ⟨x, y, sGenome, sp.timestamp⟩
  if isInsideBottle then
    if sp.allocOk then
      { s with
        history := history1
        bottlePlants := s.bottlePlants ++
          [{ id := sp.freshPlantId, originX := x, currentX := x, y := y,
             surface := sp.freshSurface, settings := sGenome }]
        plantContent := fun n => if n = sp.freshSurface then [] else s.plantContent n
        growers := s.growers ++
          [createGrower env sp.freshGrowerId sp.angleRand sp.noiseRand x y sGenome
            (Surface.plantSurface sp.freshSurface) 0 none] }
    else
      { s with history := history1 }
  else
    if sp.outsideCtxOk then
      { s with
        history := history1
        growers := s.growers ++
          [createGrower env sp.freshGrowerId sp.angleRand sp.noiseRand x y sGenome
            Surface.ambient 0 none] }
    else
      { s with history := history1 }

/-- undoLastBottlePlant from the GardenCanvas component (lines 135 to
141): pop the most recent bottle plant and immediately delete every
grower whose context is the context of the popped plant. -/
def undoLastBottlePlant (s : GardenState) : GardenState :=
  match s.bottlePlants.getLast? with
  | none => { s with bottlePlants := [] }
  | some popped =>
    { s with
      bottlePlants := s.bottlePlants.dropLast
      growers := s.growers.filter
        (fun g => !(g.ctx == Surface.plantSurface popped.surface)) }

/-- Clear-trigger effect of the GardenCanvas component (lines 197 to 209):
repaint the outside canvas with the background color (overwriting all
prior strokes) and remove every grower that targets the outside canvas. -/
def clearTriggerEffect (s : GardenState) : GardenState :=
  { s with
    ambientContent := [DrawOp.fill ("#fdfbf7") s.width s.height]
    growers := s.growers.filter (fun g => !(g.ctx == Surface.ambient)) }

/-- In-place mutation of the first list element satisfying the predicate,
matching a find followed by a field assignment on the found object. -/
def updateFirst (p : α → Bool) (f : α → α) : List α → List α
  | [] => []
  | a :: as => if p a then f a :: as else a :: updateFirst p f as

/-- handlePointerMove from the GardenCanvas component (lines 500 to 535).
With an active drag session the targeted plant, when still present, gets
currentX := plantStartX + (pointer delta), clamped to the registered
bottle rect shrunk by 20 on each side, and the handler returns before the
paint branch; without a session, painting spawns an outside plant when the
primary button is held and the random draw exceeds 0.6. -/
def handlePointerMove (env : Env) (sp : SpawnInputs) (s : GardenState)
    (canvasLeft canvasTop clientX clientY : ℚ)
    (buttonsLeft : Bool) (paintRand : ℚ) : GardenState :=
  let x := clientX - canvasLeft
  let _y := clientY - canvasTop
  match s.dragState with
  | some d =>
    match s.bottlePlants.find? (fun p => p.id == d.plantId) with
    | some _ =>
      let newX0 := d.plantStartX + (x - d.startX)
      let newX :=
        match s.bottleRect with
        | some b =>
          let bottleLeft := b.left - canvasLeft
          let bottleRight := b.right - canvasLeft
          max (bottleLeft + 20) (min (bottleRight - 20) newX0)
        | none => newX0
      let plants1 := updateFirst (fun p => p.id == d.plantId)
        (fun p => { p with currentX := newX }) s.bottlePlants
      { s with bottlePlants := plants1 }
    | none => s
  | none =>
    if buttonsLeft ∧ 0.6 < paintRand then
      spawnPlant env sp s x _y none false
    else s

/-- handlePointerUp from the GardenCanvas component (lines 537 to 539):
the drag session ref is nulled, nothing else changes. -/
def handlePointerUp (s : GardenState) : GardenState :=
  { s with dragState := none }

/-- Trajectory of one grower stepped alone for n ticks (the branch and
drawing outputs are discarded; the grower component threads through). -/
def runUnit (env : Env) (rands : ℕ → StepRands) (g : Grower) : ℕ → Grower
  | 0 => g
  | n + 1 => (stepGrower env (rands n) (runUnit env rands g n)).1

/-- Recognizer of the bloom drawing command. -/
def isFlowerOp : DrawOp → Bool
  | DrawOp.flower _ _ _ _ => true
  | _ => false

/-- The grower attempts and draws a bloom on tick i of its trajectory. -/
def bloomsAt (env : Env) (rands : ℕ → StepRands) (g : Grower) (i : ℕ) : Prop :=
  ((stepGrower env (rands i) (runUnit env rands g i)).2.2.any isFlowerOp) = true

instance (env : Env) (rands : ℕ → StepRands) (g : Grower) (i : ℕ) :
    Decidable (bloomsAt env rands g i) := by
  unfold bloomsAt; exact inferInstance

/-! Object-store model for the genome-aliasing question. A PlantSettings
value in JS is an object on the heap; the GardenCanvas code stores, into
each created grower and bottle plant, the address of the settings object
it was spawned from, while the history item stores the address of a
freshly allocated shallow copy. The updateSettings callback of App (lines
151 to 153) never mutates the current object: it allocates a merged copy
and repoints the live-settings state at it. The store is append-only, so
dereferencing any previously held address is unaffected. -/

/-- Heap of PlantSettings objects with the references held by the live
state: the address of the current settings of App, and the addresses held
by growers, history items and bottle plants. -/
structure HeapState where
  store : List PlantSettings
  liveSettings : ℕ
  unitRefs : List ℕ
  historyRefs : List ℕ
  plantRefs : List ℕ
deriving DecidableEq, Repr

/-- Dereference an address in the object store. -/
def heapLookup (h : HeapState) (a : ℕ) : Option PlantSettings :=
  h.store.get? a

/-- Reference effect of one bottle spawnPlant call with no override: the
history item receives the address of a fresh shallow copy of the live
settings object, while the new grower and the new bottle plant receive the
address of the live settings object itself. -/
def spawnHeap (h : HeapState) : HeapState :=
  match heapLookup h h.liveSettings with
  | none => h
  | some v =>
    let copyAddr := h.store.length
    { store := h.store ++ [v]
      liveSettings := h.liveSettings
      unitRefs := h.unitRefs ++ [h.liveSettings]
      historyRefs := h.historyRefs ++ [copyAddr]
      plantRefs := h.plantRefs ++ [h.liveSettings] }

/-- Reference effect of updateSettings in App (lines 151 to 153):
setSettings with a functional update allocates a new merged object and
repoints the live-settings address at it; no existing object is written. -/
def updateSettingsHeap (h : HeapState) (patch : PlantSettings → PlantSettings) :
    HeapState :=
  match heapLookup h h.liveSettings with
  | none => h
  | some v =>
    let newAddr := h.store.length
    { h with store := h.store ++ [patch v], liveSettings := newAddr }

/-! Basic facts about one grower step. -/

/-- Age increments by exactly one on every tick, TERMINAL or not. -/
theorem stepGrower_life (env : Env) (r : StepRands) (g : Grower) :
    (stepGrower env r g).1.life = g.life + 1 := by
  unfold stepGrower
  split
  · split <;> rfl
  · rfl

/-- Fields never written by the step: maxLife, width, generation,
settings and target surface. -/
theorem stepGrower_frame (env : Env) (r : StepRands) (g : Grower) :
    (stepGrower env r g).1.maxLife = g.maxLife ∧
    (stepGrower env r g).1.width = g.width ∧
    (stepGrower env r g).1.generation = g.generation ∧
    (stepGrower env r g).1.settings = g.settings ∧
    (stepGrower env r g).1.ctx = g.ctx := by
  unfold stepGrower
  split
  · split <;> exact ⟨rfl, rfl, rfl, rfl, rfl⟩
  · exact ⟨rfl, rfl, rfl, rfl, rfl⟩

/-- On a TERMINAL tick the position is not advanced. -/
theorem stepGrower_terminal_pos (env : Env) (r : StepRands) (g : Grower)
    (h : terminalG g) :
    (stepGrower env r g).1.x = g.x ∧ (stepGrower env r g).1.y = g.y := by
  unfold stepGrower
  rw [if_pos h]
  split <;> exact ⟨rfl, rfl⟩

/-- The TERMINAL phase is absorbing: age only grows and width, maxLife
are never written. -/
theorem terminalG_step (env : Env) (r : StepRands) (g : Grower)
    (h : terminalG g) : terminalG (stepGrower env r g).1 := by
  have hml := (stepGrower_frame env r g).1
  have hw := (stepGrower_frame env r g).2.1
  have hl := stepGrower_life env r g
  unfold terminalG at h ⊢
  rw [hml, hw, hl]
  rcases h with h | h
  · left
    push_cast
    linarith
  · right
    exact h

/-- Value of the bloom-attempt flag after one step: it is set on a
TERMINAL tick and untouched on a GROWING tick. -/
theorem stepGrower_flag (env : Env) (r : StepRands) (g : Grower) :
    (stepGrower env r g).1.hasAttemptedFlower =
      (g.hasAttemptedFlower || decide (terminalG g)) := by
  unfold stepGrower
  by_cases h : terminalG g
  · rw [if_pos h]
    by_cases hf : g.hasAttemptedFlower <;> simp [hf, h]
  · rw [if_neg h]
    simp [h]

/-- No TERMINAL tick emits branches. -/
theorem stepGrower_terminal_branches (env : Env) (r : StepRands) (g : Grower)
    (h : terminalG g) : (stepGrower env r g).2.1 = [] := by
  unfold stepGrower
  rw [if_pos h]
  split <;> rfl

/-- Bloom command characterization: a flower is drawn on this tick iff
the grower is TERMINAL with the one-shot flag still unset, its generation
is below 2, and the bloom trial succeeds. -/
theorem stepGrower_bloom_iff (env : Env) (r : StepRands) (g : Grower) :
    ((stepGrower env r g).2.2.any isFlowerOp = true) ↔
      (terminalG g ∧ g.hasAttemptedFlower = false ∧ g.generation < 2 ∧
        r.flowerRand < g.settings.flowerProbability) := by
  unfold stepGrower
  by_cases h : terminalG g
  · rw [if_pos h]
    cases hf : g.hasAttemptedFlower with
    | true => simp [hf]
    | false =>
      by_cases hc : g.generation < 2 ∧ r.flowerRand < g.settings.flowerProbability
      · simp [hc, isFlowerOp, h]
      · simp only [Bool.not_false, if_true, List.any_eq_true]
        constructor
        · intro hcontr
          rw [if_neg hc] at hcontr
          simp at hcontr
        · intro hcontr
          exact absurd ⟨hcontr.2.2.1, hcontr.2.2.2⟩ hc
  · rw [if_neg h]
    constructor
    · intro hany
      exfalso
      by_cases hleaf : r.leafRand < g.settings.leafFrequency <;>
        simp [hleaf, isFlowerOp] at hany
    · intro hcontr
      exact absurd hcontr.1 h

/-! Facts about multi-tick trajectories of one grower. -/

/-- Age after n ticks. -/
theorem runUnit_life (env : Env) (rands : ℕ → StepRands) (g : Grower) (n : ℕ) :
    (runUnit env rands g n).life = g.life + n := by
  induction n with
  | zero => rfl
  | succ n ih =>
    simp only [runUnit, stepGrower_life, ih]
    omega

/-- Fields never written along a trajectory. -/
theorem runUnit_frame (env : Env) (rands : ℕ → StepRands) (g : Grower) (n : ℕ) :
    (runUnit env rands g n).maxLife = g.maxLife ∧
    (runUnit env rands g n).width = g.width ∧
    (runUnit env rands g n).generation = g.generation ∧
    (runUnit env rands g n).settings = g.settings ∧
    (runUnit env rands g n).ctx = g.ctx := by
  induction n with
  | zero => exact ⟨rfl, rfl, rfl, rfl, rfl⟩
  | succ n ih =>
    have h := stepGrower_frame env (rands n) (runUnit env rands g n)
    exact ⟨h.1.trans ih.1, h.2.1.trans ih.2.1, h.2.2.1.trans ih.2.2.1,
      h.2.2.2.1.trans ih.2.2.2.1, h.2.2.2.2.trans ih.2.2.2.2⟩

/-- TERMINAL entry is absorbing along a trajectory. -/
theorem runUnit_terminal_mono (env : Env) (rands : ℕ → StepRands) (g : Grower)
    {i j : ℕ} (hij : i ≤ j) (h : terminalG (runUnit env rands g i)) :
    terminalG (runUnit env rands g j) := by
  induction j with
  | zero =>
    have hi : i = 0 := Nat.le_zero.mp hij
    exact hi ▸ h
  | succ j ih =>
    rcases Nat.eq_or_lt_of_le hij with heq | hlt
    · exact heq ▸ h
    · exact terminalG_step env (rands j) _ (ih (Nat.lt_succ_iff.mp hlt))

/-- The bloom-attempt flag never returns to false. -/
theorem runUnit_flag_mono (env : Env) (rands : ℕ → StepRands) (g : Grower)
    {i j : ℕ} (hij : i ≤ j)
    (h : (runUnit env rands g i).hasAttemptedFlower = true) :
    (runUnit env rands g j).hasAttemptedFlower = true := by
  induction j with
  | zero =>
    have hi : i = 0 := Nat.le_zero.mp hij
    exact hi ▸ h
  | succ j ih =>
    rcases Nat.eq_or_lt_of_le hij with heq | hlt
    · exact heq ▸ h
    · simp only [runUnit, stepGrower_flag, ih (Nat.lt_succ_iff.mp hlt),
        Bool.true_or]

/-- The bloom-attempt flag is untouched while no TERMINAL tick has
happened. -/
theorem runUnit_flag_stable (env : Env) (rands : ℕ → StepRands) (g : Grower)
    (i : ℕ) (h : ∀ j, j < i → ¬ terminalG (runUnit env rands g j)) :
    (runUnit env rands g i).hasAttemptedFlower = g.hasAttemptedFlower := by
  induction i with
  | zero => rfl
  | succ i ih =>
    have hnt : ¬ terminalG (runUnit env rands g i) := h i (Nat.lt_succ_self i)
    simp only [runUnit, stepGrower_flag,
      ih (fun j hj => h j (Nat.lt_succ_of_lt hj)), hnt]
    simp

/-- After any TERMINAL tick the flag is set for good. -/
theorem runUnit_flag_after_terminal (env : Env) (rands : ℕ → StepRands)
    (g : Grower) {i j : ℕ} (hij : i < j)
    (h : terminalG (runUnit env rands g i)) :
    (runUnit env rands g j).hasAttemptedFlower = true := by
  have h1 : (runUnit env rands g (i + 1)).hasAttemptedFlower = true := by
    simp only [runUnit, stepGrower_flag, h]
    simp
  exact runUnit_flag_mono env rands g hij h1

/-! Concrete fixtures used by the witness statements. -/

/-- PRESET_VINE from src/App.tsx, as a concrete genome value. -/
def presetVine : PlantSettings :=
  { type := PlantType.VINE
    stemColorStart := "#86efac"
    stemColorEnd := "#2dd4bf"
    baseWidth := 6
    growthSpeed := 3
    maxLife := 280
    curlFactor := 0.08
    straightness := 0.4
    leafColorStart := "#bef264"
    leafColorEnd := "#10b981"
    leafFrequency := 0.1
    leafSize := 12
    flowerColorStart := "#fca5a5"
    flowerColorEnd := "#c4b5fd"
    flowerProbability := 0.7
    flowerSize := 20
    petalCount := 7 }

/-- Concrete abstract environment; its values are irrelevant to every
verified property. -/
def env0 : Env :=
  { cos := fun _ => 0, sin := fun _ => 0, noise := fun _ _ _ => 0, piVal := 3 }

/-- Concrete random draws under which the leaf and branch trials fail and
the bloom trial succeeds. -/
def quietRands : StepRands :=
  { geoSnapRand := 1, geoSnapSign := false, wobbleRand := 0.5, leafRand := 1,
    leafSign := false, leafAngleRand := 0, branchRand := 1, branchSign := false,
    branchNoiseRand := 0, branchId := 99, flowerRand := 0 }

/-- Same draws at every tick. -/
def quietRandsFun : ℕ → StepRands := fun _ => quietRands

/-- Concrete random draws forcing the branch trial to succeed. -/
def branchRands : StepRands := { quietRands with branchRand := 0 }

/-- Genome whose maxLife is zero, putting a fresh grower in TERMINAL from
birth. -/
def presetVineZero : PlantSettings := { presetVine with maxLife := 0 }

/-- Fresh generation-0 grower that is TERMINAL at its first tick. -/
def gTerm : Grower :=
  createGrower env0 1 0 0 100 100 presetVineZero Surface.ambient 0 none

/-- Fresh generation-1 grower in the GROWING phase. -/
def gGen1 : Grower :=
  createGrower env0 2 0 0 50 60 presetVine Surface.ambient 1 none

/-- Fresh generation-2 grower in the GROWING phase. -/
def gGen2 : Grower :=
  createGrower env0 3 0 0 50 60 presetVine Surface.ambient 2 none

/-- The branch grower emitted by stepping gGen1 under branchRands. -/
def gBranch : Grower := ((stepGrower env0 branchRands gGen1).2.1).getD 0 gGen1

/-! Claim theorems. -/

/-- C2: every grower created with generation g has
maxAge = genome.maxLife/(g+1) and initial width = genome.baseWidth/(g+1),
and for positive maxLife and baseWidth both are strictly decreasing in the
generation. -/
theorem claim2_generation_scaling (env : Env) (freshId : ℕ)
    (angleRand noiseRand x y : ℚ) (ps : PlantSettings) (ctx : Surface)
    (ia : Option ℚ) (g : ℕ) (hg : g < 3)
    (hml : 0 < ps.maxLife) (hbw : 0 < ps.baseWidth) :
    (createGrower env freshId angleRand noiseRand x y ps ctx g ia).maxLife
        = ps.maxLife / ((g : ℚ) + 1) ∧
    (createGrower env freshId angleRand noiseRand x y ps ctx g ia).width
        = ps.baseWidth / ((g : ℚ) + 1) ∧
    (createGrower env freshId angleRand noiseRand x y ps ctx (g + 1) ia).maxLife
        < (createGrower env freshId angleRand noiseRand x y ps ctx g ia).maxLife ∧
    (createGrower env freshId angleRand noiseRand x y ps ctx (g + 1) ia).width
        < (createGrower env freshId angleRand noiseRand x y ps ctx g ia).width := by
  have h1 : (0 : ℚ) < (g : ℚ) + 1 := by positivity
  refine ⟨rfl, rfl, ?_, ?_⟩
  · show ps.maxLife / (((g + 1 : ℕ) : ℚ) + 1) < ps.maxLife / ((g : ℚ) + 1)
    push_cast
    exact div_lt_div_of_pos_left hml h1 (by linarith)
  · show ps.baseWidth / (((g + 1 : ℕ) : ℚ) + 1) < ps.baseWidth / ((g : ℚ) + 1)
    push_cast
    exact div_lt_div_of_pos_left hbw h1 (by linarith)

/-- Witness for C2 at generation 1 of the vine preset. -/
theorem claim2_witness :
    (createGrower env0 1 0 0 100 100 presetVine Surface.ambient 2 none).maxLife
      < (createGrower env0 1 0 0 100 100 presetVine Surface.ambient 1 none).maxLife ∧
    (createGrower env0 1 0 0 100 100 presetVine Surface.ambient 2 none).width
      < (createGrower env0 1 0 0 100 100 presetVine Surface.ambient 1 none).width := by
  have h := claim2_generation_scaling env0 1 0 0 100 100 presetVine Surface.ambient
    none 1 (by decide) (by with_unfolding_all decide) (by with_unfolding_all decide)
  exact ⟨h.2.2.1, h.2.2.2⟩

/-- C3: every branch grower has the generation of its parent plus one,
and a parent of generation 2 emits no branch. -/
theorem claim3_branch_generation (env : Env) (r : StepRands) (g : Grower) :
    (∀ b ∈ (stepGrower env r g).2.1, b.generation = g.generation + 1) ∧
    (2 ≤ g.generation → (stepGrower env r g).2.1 = []) := by
  constructor
  · intro b hb
    unfold stepGrower at hb
    by_cases hterm : terminalG g
    · rw [if_pos hterm] at hb
      by_cases hf : g.hasAttemptedFlower = true <;> simp [hf] at hb
    · rw [if_neg hterm] at hb
      by_cases hc : g.generation < 2 ∧ r.branchRand < branchChanceOf g.settings.type
      · rcases hc with ⟨h1, h2⟩
        simp only [h1, h2, and_self, if_true, List.mem_singleton] at hb
        subst hb
        rfl
      · simp [hc] at hb
  · intro h2
    unfold stepGrower
    by_cases hterm : terminalG g
    · rw [if_pos hterm]
      by_cases hf : g.hasAttemptedFlower = true <;> simp [hf]
    · rw [if_neg hterm]
      have hc : ¬(g.generation < 2 ∧ r.branchRand < branchChanceOf g.settings.type) :=
        fun hcc => absurd hcc.1 (by omega)
      simp [hc]

/-- Witness for C3: a concrete generation-1 parent branches to generation
2, and a concrete generation-2 parent emits no branch. -/
theorem claim3_witness :
    gBranch.generation = gGen1.generation + 1 ∧
    (stepGrower env0 branchRands gGen2).2.1 = [] := by
  constructor
  · exact (claim3_branch_generation env0 branchRands gGen1).1 gBranch
      (by with_unfolding_all decide)
  · exact (claim3_branch_generation env0 branchRands gGen2).2
      (by with_unfolding_all decide)

/-- C4: along any trajectory of a grower whose bloom flag starts unset:
a bloom is drawn at tick i only if that tick is the first TERMINAL tick,
the generation is below 2 and the trial succeeds; conversely the first
TERMINAL tick with generation below 2 and a successful trial draws a
bloom; blooms happen on at most one tick; and the flag transitions from
false to true exactly at the first TERMINAL tick. -/
theorem claim4_bloom_once (env : Env) (rands : ℕ → StepRands) (g : Grower)
    (h0 : g.hasAttemptedFlower = false) :
    (∀ i, bloomsAt env rands g i →
      terminalG (runUnit env rands g i) ∧
      (∀ j, j < i → ¬ terminalG (runUnit env rands g j)) ∧
      g.generation < 2 ∧ (rands i).flowerRand < g.settings.flowerProbability) ∧
    (∀ i, terminalG (runUnit env rands g i) →
      (∀ j, j < i → ¬ terminalG (runUnit env rands g j)) →
      g.generation < 2 → (rands i).flowerRand < g.settings.flowerProbability →
      bloomsAt env rands g i) ∧
    (∀ i j, bloomsAt env rands g i → bloomsAt env rands g j → i = j) ∧
    (∀ i, ((runUnit env rands g i).hasAttemptedFlower = false ∧
           (runUnit env rands g (i + 1)).hasAttemptedFlower = true) ↔
          (terminalG (runUnit env rands g i) ∧
           ∀ j, j < i → ¬ terminalG (runUnit env rands g j))) := by
  have hbloom : ∀ i, bloomsAt env rands g i ↔
      (terminalG (runUnit env rands g i) ∧
       (runUnit env rands g i).hasAttemptedFlower = false ∧
       (runUnit env rands g i).generation < 2 ∧
       (rands i).flowerRand < (runUnit env rands g i).settings.flowerProbability) := by
    intro i
    exact stepGrower_bloom_iff env (rands i) (runUnit env rands g i)
  have hfirst : ∀ i, bloomsAt env rands g i → ∀ j, j < i →
      ¬ terminalG (runUnit env rands g j) := by
    intro i hb j hj hterm
    have hflag := runUnit_flag_after_terminal env rands g hj hterm
    have := ((hbloom i).mp hb).2.1
    rw [this] at hflag
    exact Bool.false_ne_true hflag
  refine ⟨?_, ?_, ?_, ?_⟩
  · intro i hb
    obtain ⟨ht, hfl, hgen, hrand⟩ := (hbloom i).mp hb
    refine ⟨ht, hfirst i hb, ?_, ?_⟩
    · rw [(runUnit_frame env rands g i).2.2.1] at hgen
      exact hgen
    · rw [(runUnit_frame env rands g i).2.2.2.1] at hrand
      exact hrand
  · intro i ht hpre hgen hrand
    refine (hbloom i).mpr ⟨ht, ?_, ?_, ?_⟩
    · rw [runUnit_flag_stable env rands g i hpre]
      exact h0
    · rw [(runUnit_frame env rands g i).2.2.1]
      exact hgen
    · rw [(runUnit_frame env rands g i).2.2.2.1]
      exact hrand
  · intro i j hbi hbj
    rcases lt_trichotomy i j with hlt | heq | hgt
    · exfalso
      exact hfirst j hbj i hlt ((hbloom i).mp hbi).1
    · exact heq
    · exfalso
      exact hfirst i hbi j hgt ((hbloom j).mp hbj).1
  · intro i
    constructor
    · rintro ⟨hfi, hfi1⟩
      have hterm : terminalG (runUnit env rands g i) := by
        simp only [runUnit, stepGrower_flag, hfi, Bool.false_or,
          decide_eq_true_eq] at hfi1
        exact hfi1
      refine ⟨hterm, ?_⟩
      intro j hj hc
      have := runUnit_flag_after_terminal env rands g hj hc
      rw [hfi] at this
      exact Bool.false_ne_true this
    · rintro ⟨hterm, hpre⟩
      have hfi : (runUnit env rands g i).hasAttemptedFlower = false := by
        rw [runUnit_flag_stable env rands g i hpre]
        exact h0
      refine ⟨hfi, ?_⟩
      simp only [runUnit, stepGrower_flag, hterm, hfi]
      simp

/-- Witness for C4: the concrete grower that is TERMINAL from birth
blooms and that tick is recognized as its first TERMINAL tick. -/
theorem claim4_witness :
    terminalG (runUnit env0 quietRandsFun gTerm 0) ∧
    (0 : ℕ) = 0 := by
  constructor
  · exact ((claim4_bloom_once env0 quietRandsFun gTerm rfl).1 0
      (by with_unfolding_all decide)).1
  · exact (claim4_bloom_once env0 quietRandsFun gTerm rfl).2.2.1 0 0
      (by with_unfolding_all decide) (by with_unfolding_all decide)

/-! Facts about the whole-state operations. -/

/-- Grower collection after one tick, written with processGrowers. -/
theorem update_growers (env : Env) (rands : ℕ → StepRands) (s : GardenState) :
    (update env rands s).growers =
      ((processGrowers env rands 0 s.growers).1 ++
        (processGrowers env rands 0 s.growers).2.1).filter
        (fun g => decide ((g.life : ℚ) < g.maxLife + 50)) := rfl

/-- Replaying tagged drawing commands only ever appends to the ambient
content. -/
theorem applySurfaceOps_ambient_append :
    ∀ (l : List (Surface × List DrawOp)) (amb : List DrawOp)
      (pc : ℕ → List DrawOp),
    ∃ t, (applySurfaceOps amb pc l).1 = amb ++ t := by
  intro l
  induction l with
  | nil =>
    intro amb pc
    exact ⟨[], by simp [applySurfaceOps]⟩
  | cons hd tl ih =>
    intro amb pc
    obtain ⟨srf, ops⟩ := hd
    cases srf with
    | ambient =>
      obtain ⟨t, ht⟩ := ih (amb ++ ops) pc
      exact ⟨ops ++ t, by
        show (applySurfaceOps (amb ++ ops) pc tl).1 = amb ++ (ops ++ t)
        rw [ht, List.append_assoc]⟩
    | plantSurface n =>
      exact ih amb _

/-- The drawImage fold of the composite pass is a map. -/
theorem foldl_viewops (pc : ℕ → List DrawOp) :
    ∀ (l : List BottlePlant) (acc : List ViewOp),
    l.foldl (fun a p => a ++ [⟨pc p.surface, p.currentX - p.originX, 0⟩]) acc
      = acc ++ l.map (fun p => ⟨pc p.surface, p.currentX - p.originX, 0⟩) := by
  intro l
  induction l with
  | nil => intro acc; simp
  | cons hd tl ih =>
    intro acc
    simp only [List.foldl_cons, List.map_cons, ih]
    simp

/-- Mutating the first match keeps the list length. -/
theorem updateFirst_length (p : α → Bool) (f : α → α) :
    ∀ l : List α, (updateFirst p f l).length = l.length := by
  intro l
  induction l with
  | nil => rfl
  | cons a as ih =>
    unfold updateFirst
    split
    · simp
    · simp [ih]

/-- When find? succeeds, mutating the first match is observed by the next
find? with the same predicate, provided the mutation preserves the
predicate. -/
theorem find?_updateFirst (p : α → Bool) (f : α → α)
    (hpf : ∀ a, p a = true → p (f a) = true) :
    ∀ l : List α, ∀ a, l.find? p = some a →
      (updateFirst p f l).find? p = some (f a) := by
  intro l
  induction l with
  | nil =>
    intro a h
    simp at h
  | cons b bs ih =>
    intro a h
    by_cases hb : p b = true
    · rw [List.find?_cons_of_pos bs hb] at h
      injection h with h
      subst h
      unfold updateFirst
      rw [if_pos hb]
      exact List.find?_cons_of_pos bs (hpf b hb)
    · rw [List.find?_cons_of_neg bs (by simpa using hb)] at h
      unfold updateFirst
      rw [if_neg hb, List.find?_cons_of_neg (updateFirst p f bs)
        (by simpa using hb)]
      exact ih a h

/-- C1: after a tick, a stepped or freshly branched grower is in the live
collection iff its (incremented) age is below maxAge + 50; a TERMINAL
tick leaves the position unchanged, still increments the age, and stays
TERMINAL; undo removes every grower of the popped plant by surface alone,
with no age condition. -/
theorem claim1_lifecycle (env : Env) (rands : ℕ → StepRands) :
    (∀ s : GardenState, ∀ g : Grower,
      g ∈ (processGrowers env rands 0 s.growers).1 ++
          (processGrowers env rands 0 s.growers).2.1 →
      (g ∈ (update env rands s).growers ↔ (g.life : ℚ) < g.maxLife + 50)) ∧
    (∀ r g, terminalG g →
      (stepGrower env r g).1.x = g.x ∧ (stepGrower env r g).1.y = g.y ∧
      (stepGrower env r g).1.life = g.life + 1 ∧
      terminalG (stepGrower env r g).1) ∧
    (∀ s : GardenState, ∀ p : BottlePlant, s.bottlePlants.getLast? = some p →
      (undoLastBottlePlant s).growers =
        s.growers.filter (fun g => !(g.ctx == Surface.plantSurface p.surface))) := by
  refine ⟨?_, ?_, ?_⟩
  · intro s g hg
    rw [update_growers, List.mem_filter]
    constructor
    · rintro ⟨_, hp⟩
      exact of_decide_eq_true hp
    · intro hlt
      exact ⟨hg, decide_eq_true hlt⟩
  · intro r g ht
    exact ⟨(stepGrower_terminal_pos env r g ht).1,
      (stepGrower_terminal_pos env r g ht).2,
      stepGrower_life env r g, terminalG_step env r g ht⟩
  · intro s p hp
    unfold undoLastBottlePlant
    rw [hp]

/-- C6: each tick rebuilds the inside view as exactly one drawImage per
bottle plant, of its post-step private content at horizontal offset
currentX - originX and vertical offset 0, and only appends to the ambient
content (the tick never clears it). -/
theorem claim6_composite (env : Env) (rands : ℕ → StepRands) (s : GardenState) :
    (update env rands s).insideView =
      s.bottlePlants.map
        (fun p => ⟨(update env rands s).plantContent p.surface,
                   p.currentX - p.originX, 0⟩) ∧
    (∃ t, (update env rands s).ambientContent = s.ambientContent ++ t) ∧
    (update env rands s).bottlePlants = s.bottlePlants := by
  refine ⟨?_, ?_, rfl⟩
  · rw [show (update env rands s).insideView = s.bottlePlants.foldl
      (fun acc p => acc ++ [⟨(update env rands s).plantContent p.surface,
        p.currentX - p.originX, 0⟩]) [] from rfl]
    rw [foldl_viewops]
    simp
  · exact applySurfaceOps_ambient_append _ s.ambientContent s.plantContent

/-- C7: a pointer move during a drag session whose plant exists writes to
the currentX of that plant exactly the pointer-delta position clamped to
the registered bounds shrunk by 20, and performs no spawn: growers,
history, the number of bottle plants and the session are unchanged. -/
theorem claim7_drag_clamp (env : Env) (sp : SpawnInputs) (s : GardenState)
    (canvasLeft canvasTop clientX clientY : ℚ) (buttonsLeft : Bool)
    (paintRand : ℚ) (d : DragState) (p : BottlePlant) (b : Rect)
    (hd : s.dragState = some d)
    (hp : s.bottlePlants.find? (fun q => q.id == d.plantId) = some p)
    (hb : s.bottleRect = some b) :
    ((handlePointerMove env sp s canvasLeft canvasTop clientX clientY
        buttonsLeft paintRand).bottlePlants.find? (fun q => q.id == d.plantId))
      = some { p with currentX := max ((b.left - canvasLeft) + 20)
                        (min ((b.right - canvasLeft) - 20)
                          (d.plantStartX + ((clientX - canvasLeft) - d.startX))) } ∧
    (handlePointerMove env sp s canvasLeft canvasTop clientX clientY
        buttonsLeft paintRand).growers = s.growers ∧
    (handlePointerMove env sp s canvasLeft canvasTop clientX clientY
        buttonsLeft paintRand).history = s.history ∧
    (handlePointerMove env sp s canvasLeft canvasTop clientX clientY
        buttonsLeft paintRand).bottlePlants.length = s.bottlePlants.length ∧
    (handlePointerMove env sp s canvasLeft canvasTop clientX clientY
        buttonsLeft paintRand).dragState = s.dragState := by
  have key : handlePointerMove env sp s canvasLeft canvasTop clientX clientY
      buttonsLeft paintRand =
      { s with bottlePlants := updateFirst (fun q => q.id == d.plantId)
                 (fun q => { q with currentX := max ((b.left - canvasLeft) + 20)
                                      (min ((b.right - canvasLeft) - 20)
                                        (d.plantStartX +
                                          ((clientX - canvasLeft) - d.startX))) })
                 s.bottlePlants } := by
    unfold handlePointerMove
    simp only [hd, hp, hb]
  rw [key]
  refine ⟨?_, rfl, rfl, ?_, hd.symm ▸ rfl⟩
  · exact find?_updateFirst (fun q => q.id == d.plantId)
      (fun q => { q with currentX := max ((b.left - canvasLeft) + 20)
                           (min ((b.right - canvasLeft) - 20)
                             (d.plantStartX +
                               ((clientX - canvasLeft) - d.startX))) })
      (fun a ha => ha) s.bottlePlants p hp
  · exact updateFirst_length _ _ s.bottlePlants

/-- C8: when the offscreen drawing context cannot be obtained, a bottle
spawn creates no bottle plant and no grower and leaves every component of
the growth state unchanged (only the history record is appended, which is
outside the growth state). -/
theorem claim8_spawn_alloc_failure (env : Env) (sp : SpawnInputs)
    (s : GardenState) (x y : ℚ) (ov : Option PlantSettings)
    (hfail : sp.allocOk = false) :
    (spawnPlant env sp s x y ov true).growers = s.growers ∧
    (spawnPlant env sp s x y ov true).bottlePlants = s.bottlePlants ∧
    (spawnPlant env sp s x y ov true).plantContent = s.plantContent ∧
    (spawnPlant env sp s x y ov true).ambientContent = s.ambientContent ∧
    (spawnPlant env sp s x y ov true).insideView = s.insideView ∧
    (spawnPlant env sp s x y ov true).dragState = s.dragState := by
  unfold spawnPlant
  simp [hfail]

/-- C9 (amended): a pointer move during a drag session whose plant was
removed leaves the whole state unchanged, so it repositions nothing and
spawns nothing and raises no error, but the session stays active; the
session ends on the next pointer up, which changes nothing else. -/
theorem claim9_stale_drag (env : Env) (sp : SpawnInputs) (s : GardenState)
    (canvasLeft canvasTop clientX clientY : ℚ) (buttonsLeft : Bool)
    (paintRand : ℚ) (d : DragState)
    (hd : s.dragState = some d)
    (hp : s.bottlePlants.find? (fun q => q.id == d.plantId) = none) :
    handlePointerMove env sp s canvasLeft canvasTop clientX clientY
      buttonsLeft paintRand = s ∧
    (handlePointerUp s).dragState = none ∧
    (handlePointerUp s).bottlePlants = s.bottlePlants ∧
    (handlePointerUp s).growers = s.growers ∧
    (handlePointerUp s).history = s.history := by
  refine ⟨?_, rfl, rfl, rfl, rfl⟩
  unfold handlePointerMove
  simp only [hd, hp]

/-- C10: the explicit ambient clear repaints the outside canvas with the
background fill and removes exactly the growers targeting the ambient
surface, leaving bottle plants, their private contents, the inside view
and the history untouched. -/
theorem claim10_clear_ambient (s : GardenState) :
    ((clearTriggerEffect s).bottlePlants = s.bottlePlants) ∧
    ((clearTriggerEffect s).history = s.history) ∧
    ((clearTriggerEffect s).plantContent = s.plantContent) ∧
    ((clearTriggerEffect s).insideView = s.insideView) ∧
    ((clearTriggerEffect s).ambientContent =
      [DrawOp.fill ("#fdfbf7") s.width s.height]) ∧
    (∀ g : Grower, g ∈ (clearTriggerEffect s).growers ↔
      (g ∈ s.growers ∧ g.ctx ≠ Surface.ambient)) := by
  refine ⟨rfl, rfl, rfl, rfl, rfl, ?_⟩
  intro g
  rw [show (clearTriggerEffect s).growers =
    s.growers.filter (fun g => !(g.ctx == Surface.ambient)) from rfl,
    List.mem_filter]
  constructor
  · rintro ⟨hmem, hp⟩
    exact ⟨hmem, by simpa using hp⟩
  · rintro ⟨hmem, hctx⟩
    exact ⟨hmem, by simpa using hctx⟩

/-- C5: one bottle spawn records a copy of the live genome in the history
and hands the spawned unit and plant the live genome object; a subsequent
settings edit allocates a fresh merged object and repoints only the
live-settings reference, so every reference held before the edit still
dereferences to the same genome value, and no held reference is
rewritten. -/
theorem claim5_genome_snapshot (h0 : HeapState)
    (patch : PlantSettings → PlantSettings)
    (hwfU : ∀ a ∈ h0.unitRefs, a < h0.store.length)
    (hwfH : ∀ a ∈ h0.historyRefs, a < h0.store.length)
    (hwfP : ∀ a ∈ h0.plantRefs, a < h0.store.length)
    (hlive : h0.liveSettings < h0.store.length) :
    ((updateSettingsHeap (spawnHeap h0) patch).unitRefs
        = (spawnHeap h0).unitRefs) ∧
    ((updateSettingsHeap (spawnHeap h0) patch).historyRefs
        = (spawnHeap h0).historyRefs) ∧
    ((updateSettingsHeap (spawnHeap h0) patch).plantRefs
        = (spawnHeap h0).plantRefs) ∧
    (∀ a, a ∈ (spawnHeap h0).unitRefs ++ (spawnHeap h0).historyRefs ++
        (spawnHeap h0).plantRefs →
      heapLookup (updateSettingsHeap (spawnHeap h0) patch) a
        = heapLookup (spawnHeap h0) a) := by
  obtain ⟨v, hv⟩ : ∃ v, heapLookup h0 h0.liveSettings = some v := by
    unfold heapLookup
    rw [List.get?_eq_get hlive]
    exact ⟨_, rfl⟩
  have hspawn : spawnHeap h0 =
      { store := h0.store ++ [v], liveSettings := h0.liveSettings,
        unitRefs := h0.unitRefs ++ [h0.liveSettings],
        historyRefs := h0.historyRefs ++ [h0.store.length],
        plantRefs := h0.plantRefs ++ [h0.liveSettings] } := by
    unfold spawnHeap
    rw [hv]
  have hv1 : heapLookup (spawnHeap h0) (spawnHeap h0).liveSettings = some v := by
    rw [hspawn]
    unfold heapLookup at hv ⊢
    exact (List.get?_append hlive).trans hv
  have hupd : updateSettingsHeap (spawnHeap h0) patch =
      { spawnHeap h0 with
          store := (spawnHeap h0).store ++ [patch v]
          liveSettings := (spawnHeap h0).store.length } := by
    unfold updateSettingsHeap
    rw [hv1]
  refine ⟨by rw [hupd], by rw [hupd], by rw [hupd], ?_⟩
  intro a ha
  have halt : a < (spawnHeap h0).store.length := by
    rw [hspawn] at ha ⊢
    simp only [List.mem_append, List.mem_singleton, List.length_append,
      List.length_singleton] at ha ⊢
    rcases ha with ((h | h) | (h | h)) | (h | h)
    · exact Nat.lt_succ_of_lt (hwfU a h)
    · exact h ▸ Nat.lt_succ_of_lt hlive
    · exact Nat.lt_succ_of_lt (hwfH a h)
    · exact h ▸ Nat.lt_succ_self _
    · exact Nat.lt_succ_of_lt (hwfP a h)
    · exact h ▸ Nat.lt_succ_of_lt hlive
  rw [hupd]
  unfold heapLookup
  exact List.get?_append halt

/-! Remaining concrete fixtures and witnesses. -/

/-- Fresh generation-0 ambient grower. -/
def g0 : Grower := createGrower env0 7 0 0 100 100 presetVine Surface.ambient 0 none

/-- Garden state holding one ambient grower and nothing else. -/
def s0 : GardenState :=
  { settings := presetVine
    growers := [g0]
    bottlePlants := []
    history := []
    ambientContent := []
    plantContent := fun _ => []
    insideView := []
    bottleRect := none
    dragState := none
    width := 800
    height := 600 }

/-- The grower g0 after one quiet tick. -/
def g0stepped : Grower := (stepGrower env0 quietRands g0).1

/-- Spawn inputs whose offscreen context allocation fails. -/
def spFail : SpawnInputs :=
  { timestamp := 0
    allocOk := false
    outsideCtxOk := true
    freshSurface := 0
    freshPlantId := 0
    freshGrowerId := 0
    angleRand := 0
    noiseRand := 0 }

/-- Concrete bottle plant sitting at x = 100. -/
def p300 : BottlePlant :=
  { id := 5, originX := 100, currentX := 100, y := 250, surface := 0,
    settings := presetVine }

/-- Drag session targeting p300 started at pointer x = 0. -/
def d300 : DragState := { plantId := 5, startX := 0, plantStartX := 100 }

/-- State with p300 under drag and bottle bounds left 0, right 300. -/
def sDrag : GardenState :=
  { settings := presetVine
    growers := []
    bottlePlants := [p300]
    history := []
    ambientContent := []
    plantContent := fun _ => []
    insideView := []
    bottleRect := some { left := 0, right := 300 }
    dragState := some d300
    width := 800
    height := 600 }

/-- Same state after the dragged plant was removed by undo. -/
def sStale : GardenState := { sDrag with bottlePlants := [] }

/-- Heap with one live genome object and no references yet. -/
def heap0 : HeapState :=
  { store := [presetVine], liveSettings := 0, unitRefs := [], historyRefs := [],
    plantRefs := [] }

/-- Concrete settings edit: the thickness slider is moved. -/
def patch0 : PlantSettings → PlantSettings := fun ps => { ps with baseWidth := 15 }

/-- Witness for C1: after one tick of the one-grower state, the stepped
grower is live iff its new age is below its maxAge + 50. -/
theorem claim1_witness :
    g0stepped ∈ (update env0 quietRandsFun s0).growers ↔
      (g0stepped.life : ℚ) < g0stepped.maxLife + 50 := by
  exact (claim1_lifecycle env0 quietRandsFun).1 s0 g0stepped
    (by with_unfolding_all decide)

/-- Witness for C5: after a bottle spawn followed by a settings edit, the
address spawned into the unit still dereferences to the same genome. -/
theorem claim5_witness :
    heapLookup (updateSettingsHeap (spawnHeap heap0) patch0) 0 =
      heapLookup (spawnHeap heap0) 0 := by
  exact (claim5_genome_snapshot heap0 patch0 (by decide) (by decide) (by decide)
    (by with_unfolding_all decide)).2.2.2 0 (by with_unfolding_all decide)

/-- Witness for C7, scenario C: bounds left 0 and right 300 and a pointer
move implying newX = 350 set currentX to exactly 280, with no spawn. -/
theorem claim7_witness :
    ((handlePointerMove env0 spFail sDrag 0 0 250 10 false 0).bottlePlants.find?
        (fun q => q.id == d300.plantId)) = some { p300 with currentX := 280 } ∧
    (handlePointerMove env0 spFail sDrag 0 0 250 10 false 0).growers
      = sDrag.growers := by
  have h := claim7_drag_clamp env0 spFail sDrag 0 0 250 10 false 0 d300 p300
    { left := 0, right := 300 } rfl (by with_unfolding_all decide) rfl
  refine ⟨?_, h.2.1⟩
  rw [h.1]
  with_unfolding_all decide

/-- Witness for C8: the failed bottle spawn changes neither the growers
nor the bottle plants of the concrete state. -/
theorem claim8_witness :
    (spawnPlant env0 spFail s0 10 20 none true).growers = s0.growers ∧
    (spawnPlant env0 spFail s0 10 20 none true).bottlePlants
      = s0.bottlePlants := by
  have h := claim8_spawn_alloc_failure env0 spFail s0 10 20 none rfl
  exact ⟨h.1, h.2.1⟩

/-- Counterexample for C9 as stated: after undo removed the dragged
plant, the next pointer move does not end the session; the drag state is
still the active session. -/
theorem claim9_counterexample :
    (handlePointerMove env0 spFail sStale 0 0 10 10 false 0).dragState
      = some d300 := by
  with_unfolding_all decide

/-- Witness for the amended C9: the stale pointer move leaves the state
unchanged and the following pointer up ends the session. -/
theorem claim9_witness :
    handlePointerMove env0 spFail sStale 0 0 10 10 false 0 = sStale ∧
    (handlePointerUp sStale).dragState = none := by
  have h := claim9_stale_drag env0 spFail sStale 0 0 10 10 false 0 d300 rfl rfl
  exact ⟨h.1, h.2.1⟩

end SketchGarden
